import Mathlib

/-!
Verification of the gentamicin dosing engine
(`src/gentamicin_calculator/calculator.py`, class `GentamicinCalculator`).

Embedding conventions:
- Python floats are modelled as exact rationals `ℚ`; the spec states the
  arithmetic (Devine IBW, Cockcroft-Gault, banding, rounding) over real
  numbers, and the claims under study are about that arithmetic.
- `raise ValueError(msg)` is modelled as `Except.error msg`; a normal
  return is `Except.ok`.
- Python `sex.strip().lower()` is modelled over `List Char` by
  `pyStrip`/`pyLower` (trim ASCII whitespace, then lower-case each
  character).
- Arguments that Python allows to be `None` are modelled as `Option ℚ` in
  the validator; `calculate_dose` passes its numeric arguments through as
  `some`.
- The Python `dict` results are modelled as a structure (`DoseResult`)
  with an `Option` field for the key `ibw` that is present only on one
  pathway, and a tagged variant `DoseInfo` for the mutually exclusive
  keys `dose_mg`/`dose_basis` versus `advisory`.
-/

namespace Gentamicin

/-- Python whitespace characters removed by `str.strip()` (ASCII subset). -/
def pyIsSpace (c : Char) : Bool :=
  c = ' ' || c = '\t' || c = '\n' || c = '\r' || c = '\x0b' || c = '\x0c'

/-- Model of Python `str.strip()` on a list of characters. -/
def pyStrip (s : List Char) : List Char :=
  ((s.dropWhile pyIsSpace).reverse.dropWhile pyIsSpace).reverse

/-- Model of Python `str.lower()` on a list of characters. -/
def pyLower (s : List Char) : List Char :=
  s.map Char.toLower

/-- `sex.strip().lower()` as used throughout `calculator.py`. -/
def normalizeSex (s : List Char) : List Char :=
  pyLower (pyStrip s)

def maleStr : List Char :=
  "male".data

def femaleStr : List Char :=
  "female".data

-- Clinical constants (`GentamicinCalculator` class attributes).

def OBESITY_BMI_THRESHOLD : ℚ := 30.0

def MAX_DOSE_MG : ℤ := 480

def HIGH_CRCL_THRESHOLD : ℚ := 30.0

def LOW_CRCL_THRESHOLD : ℚ := 20.0

-- Error / advisory / label strings appearing in `calculator.py`.

def msgWeightRequired : String :=
  "Weight (kg) is required."

def msgHeightRequired : String :=
  "Height (cm) is required."

def msgAgeRequired : String :=
  "Age (years) is required."

def msgCreatinineRequired : String :=
  "Serum Creatinine (µmol/L) is required."

def msgWeightPositive : String :=
  "Weight (kg) must be positive."

def msgHeightPositive : String :=
  "Height (cm) must be positive."

def msgAgePositive : String :=
  "Age (years) must be positive."

def msgCreatininePositive : String :=
  "Serum Creatinine (µmol/L) must be positive."

def msgAgeRange : String :=
  "Age must be between 1 and 120 years."

def msgWeightRange : String :=
  "Weight must be between 1 and 1000 kg."

def msgHeightRange : String :=
  "Height must be between 30 and 300 cm."

def msgCreatinineRange : String :=
  "Serum creatinine must be between 1 and 1000 µmol/L."

def msgSex : String :=
  "Sex must be \x27male\x27 or \x27female\x27."

def msgHeightBmi : String :=
  "Height must be > 0 cm."

def msgIbwRange : String :=
  "Height must be > 60 inches (152.4 cm) for IBW calculation."

def msgNonPhysiologic : String :=
  "Calculated IBW is non-physiologic; please check inputs."

def msgCreatinineZero : String :=
  "Serum creatinine must be > 0."

def advisoryText : String :=
  "Seek microbiology advice as CrCl < 20"

def normalPathway : String :=
  "Normal weight pathway"

def adjustedPathway : String :=
  "Adjusted weight pathway"

def basis5 : String :=
  "5 mg/kg"

def basis3 : String :=
  "3 mg/kg"

/-- One step of the positivity loop in `_validate_common_inputs`:
`None` check, then `value <= 0` check, for a single named field.
(The `isinstance` number check of the Python cannot fire in this typed
embedding, where the argument is already `Option ℚ`.) -/
def validateField (requiredMsg positiveMsg : String) (value : Option ℚ) :
    Except String ℚ :=
  match value with
  | none => Except.error requiredMsg
  | some v => if v ≤ 0 then Except.error positiveMsg else Except.ok v

/-- `GentamicinCalculator._validate_common_inputs`: positivity loop in
source order (weight, height, age, creatinine), then range checks, then
sex normalization.  Returns the normalized sex. -/
def validate_common_inputs (weight_kg height_cm age_years : Option ℚ)
    (sex : List Char) (creatinine_umol_per_l : Option ℚ) :
    Except String (List Char) := do
  let w ← validateField msgWeightRequired msgWeightPositive weight_kg
  let h ← validateField msgHeightRequired msgHeightPositive height_cm
  let a ← validateField msgAgeRequired msgAgePositive age_years
  let c ← validateField msgCreatinineRequired msgCreatininePositive
    creatinine_umol_per_l
  if ¬(1 ≤ a ∧ a ≤ 120) then Except.error msgAgeRange
  else if ¬(1 ≤ w ∧ w ≤ 1000) then Except.error msgWeightRange
  else if ¬(30 ≤ h ∧ h ≤ 300) then Except.error msgHeightRange
  else if ¬(1 ≤ c ∧ c ≤ 1000) then Except.error msgCreatinineRange
  else
    let normalized_sex := normalizeSex sex
    if normalized_sex = maleStr ∨ normalized_sex = femaleStr then
      Except.ok normalized_sex
    else Except.error msgSex

/-- `GentamicinCalculator.cm_to_inches`. -/
def cm_to_inches (height_cm : ℚ) : ℚ :=
  height_cm / 2.54

/-- `GentamicinCalculator.kg_to_lbs`. -/
def kg_to_lbs (weight_kg : ℚ) : ℚ :=
  weight_kg * 2.2046226218

/-- `GentamicinCalculator.inches_to_feet_inches`. -/
def inches_to_feet_inches (height_inches : ℚ) : ℤ × ℚ :=
  let feet := ⌊height_inches / 12⌋
  (feet, height_inches - feet * 12)

/-- `GentamicinCalculator.calculate_bmi`. -/
def calculate_bmi (weight_kg height_cm : ℚ) : Except String ℚ :=
  let height_m := height_cm / 100
  if height_m ≤ 0 then Except.error msgHeightBmi
  else Except.ok (weight_kg / height_m ^ 2)

/-- `GentamicinCalculator.calculate_ibw` (Devine formula).
Returns `(ibw_kg, height_inches)`. -/
def calculate_ibw (height_cm : ℚ) (sex : List Char) :
    Except String (ℚ × ℚ) :=
  let normalized_sex := normalizeSex sex
  let height_inches := cm_to_inches height_cm
  if height_inches ≤ 60 then Except.error msgIbwRange
  else
    let inches_over_60 := height_inches - 60
    let ibw : ℚ :=
      if normalized_sex = maleStr then 50.0 + 2.3 * inches_over_60
      else 45.5 + 2.3 * inches_over_60
    if ibw ≤ 0 then Except.error msgNonPhysiologic
    else Except.ok (ibw, height_inches)

/-- The `details` dictionary built by `calculate_dosing_weight`:
`ibw` is a key present only on the adjusted pathway. -/
structure WeightDetails where
  bmi : ℚ
  pathway : String
  height_inches : ℚ
  ibw : Option ℚ
deriving Repr, DecidableEq

/-- `GentamicinCalculator.calculate_dosing_weight`. -/
def calculate_dosing_weight (weight_kg height_cm : ℚ) (sex : List Char) :
    Except String (ℚ × WeightDetails) := do
  let bmi ← calculate_bmi weight_kg height_cm
  if bmi < OBESITY_BMI_THRESHOLD then
    Except.ok (weight_kg,
      { bmi := bmi, pathway := normalPathway,
        height_inches := cm_to_inches height_cm, ibw := none })
  else do
    let p ← calculate_ibw height_cm sex
    let ibw := p.1
    let height_inches := p.2
    let adjusted := ibw + 0.4 * (weight_kg - ibw)
    Except.ok (adjusted,
      { bmi := bmi, pathway := adjustedPathway,
        height_inches := height_inches, ibw := some ibw })

/-- `GentamicinCalculator.calculate_creatinine_clearance`
(Cockcroft-Gault on actual weight, creatinine in µmol/L). -/
def calculate_creatinine_clearance (age_years actual_weight_kg : ℚ)
    (sex : List Char) (creatinine_umol_per_l : ℚ) : Except String ℚ :=
  let normalized_sex := normalizeSex sex
  let denominator := creatinine_umol_per_l
  if denominator ≤ 0 then Except.error msgCreatinineZero
  else
    let factor : ℚ := if normalized_sex = maleStr then 1.23 else 1.04
    Except.ok ((140 - age_years) * actual_weight_kg * factor / denominator)

/-- `GentamicinCalculator.round_to_nearest_10`:
`int(math.floor(value / 10.0 + 0.5) * 10)`. -/
def round_to_nearest_10 (value : ℚ) : ℤ :=
  ⌊value / 10 + 0.5⌋ * 10

/-- The mutually exclusive result keys `dose_mg`/`dose_basis` versus
`advisory` of `calculate_dose`. -/
inductive DoseInfo where
  | dose (dose_mg : ℤ) (dose_basis : String)
  | advisory (message : String)
deriving Repr, DecidableEq

/-- The result dictionary of `calculate_dose`, flattened: the
`details` keys, the dose outcome, and the `conversions` sub-dictionary. -/
structure DoseResult where
  bmi : ℚ
  pathway : String
  height_inches : ℚ
  ibw : Option ℚ
  dosing_weight : ℚ
  creatinine_clearance : ℚ
  dose_info : DoseInfo
  weight_lbs : ℚ
  height_feet : ℤ
  height_inches_remainder : ℚ
deriving Repr, DecidableEq

instance : Inhabited DoseResult :=
  ⟨⟨0, "", 0, none, 0, 0, DoseInfo.advisory "", 0, 0, 0⟩⟩

/-- `GentamicinCalculator.calculate_dose`: the full pipeline. -/
def calculate_dose (weight_kg height_cm age_years : ℚ) (sex : List Char)
    (creatinine_umol_per_l : ℚ) : Except String DoseResult := do
  let _normalized_sex ← validate_common_inputs (some weight_kg)
    (some height_cm) (some age_years) sex (some creatinine_umol_per_l)
  let pd ← calculate_dosing_weight weight_kg height_cm _normalized_sex
  let dosing_weight := pd.1
  let details := pd.2
  let crcl ← calculate_creatinine_clearance age_years weight_kg
    _normalized_sex creatinine_umol_per_l
  let dose_info : DoseInfo :=
    if crcl > HIGH_CRCL_THRESHOLD then
      DoseInfo.dose (min MAX_DOSE_MG (round_to_nearest_10 (5.0 * dosing_weight)))
        basis5
    else if LOW_CRCL_THRESHOLD ≤ crcl ∧ crcl ≤ HIGH_CRCL_THRESHOLD then
      DoseInfo.dose (min MAX_DOSE_MG (round_to_nearest_10 (3.0 * dosing_weight)))
        basis3
    else
      DoseInfo.advisory advisoryText
  let fi := inches_to_feet_inches details.height_inches
  Except.ok
    { bmi := details.bmi, pathway := details.pathway,
      height_inches := details.height_inches, ibw := details.ibw,
      dosing_weight := dosing_weight, creatinine_clearance := crcl,
      dose_info := dose_info, weight_lbs := kg_to_lbs weight_kg,
      height_feet := fi.1, height_inches_remainder := fi.2 }

/-- The Devine IBW value computed by `calculate_ibw` once its range check
has passed: 50.0 (male) / 45.5 (otherwise) plus 2.3 per inch over 60. -/
def devineIbw (height_cm : ℚ) (sex : List Char) : ℚ :=
  if normalizeSex sex = maleStr then 50.0 + 2.3 * (cm_to_inches height_cm - 60)
  else 45.5 + 2.3 * (cm_to_inches height_cm - 60)

/-- The Cockcroft-Gault sex factor chosen by
`calculate_creatinine_clearance`. -/
def sexFactor (sex : List Char) : ℚ :=
  if normalizeSex sex = maleStr then 1.23 else 1.04

/-- The dose-band decision of `calculate_dose` as a function of the
creatinine clearance and the dosing weight. -/
def bandDose (crcl dosing_weight : ℚ) : DoseInfo :=
  if crcl > HIGH_CRCL_THRESHOLD then
    DoseInfo.dose (min MAX_DOSE_MG (round_to_nearest_10 (5.0 * dosing_weight)))
      basis5
  else if LOW_CRCL_THRESHOLD ≤ crcl ∧ crcl ≤ HIGH_CRCL_THRESHOLD then
    DoseInfo.dose (min MAX_DOSE_MG (round_to_nearest_10 (3.0 * dosing_weight)))
      basis3
  else
    DoseInfo.advisory advisoryText

/-- Extract the payload of a successful `Except`, defaulting on error. -/
def resultOf : Except String DoseResult → DoseResult
  | Except.ok r => r
  | Except.error _ => default

-- ------------------------------------------------------------------
-- Helper lemmas shared by the claim theorems.
-- ------------------------------------------------------------------

theorem ok_bind {α β : Type} (a : α) (f : α → Except String β) :
    (Except.ok a >>= f) = f a := rfl

theorem exceptBind_ok_inv {α β : Type} {e : Except String α}
    {f : α → Except String β} {b : β} (h : e >>= f = Except.ok b) :
    ∃ a, e = Except.ok a ∧ f a = Except.ok b := by
  cases e with
  | error s => simp [Bind.bind, Except.bind] at h
  | ok a => exact ⟨a, rfl, by simpa [Bind.bind, Except.bind] using h⟩

theorem normalizeSex_male : normalizeSex maleStr = maleStr := by decide

theorem normalizeSex_female : normalizeSex femaleStr = femaleStr := by decide

theorem validateField_pos {rm pm : String} {v : ℚ} (h : ¬ v ≤ 0) :
    validateField rm pm (some v) = Except.ok v := by
  simp [validateField, h]

theorem validateField_ok_inv {rm pm : String} {v v' : ℚ}
    (h : validateField rm pm (some v) = Except.ok v') : 0 < v ∧ v' = v := by
  by_cases hv : v ≤ 0
  · simp [validateField, hv] at h
  · refine ⟨lt_of_not_le hv, ?_⟩
    rw [validateField_pos hv] at h
    exact (Except.ok.injEq _ _).mp h.symm

theorem validate_ok (w h a c : ℚ) (s : List Char)
    (hw1 : 1 ≤ w) (hw2 : w ≤ 1000) (hh1 : 30 ≤ h) (hh2 : h ≤ 300)
    (ha1 : 1 ≤ a) (ha2 : a ≤ 120) (hc1 : 1 ≤ c) (hc2 : c ≤ 1000)
    (hs : normalizeSex s = maleStr ∨ normalizeSex s = femaleStr) :
    validate_common_inputs (some w) (some h) (some a) s (some c) =
      Except.ok (normalizeSex s) := by
  have hw0 : ¬ w ≤ 0 := by linarith
  have hh0 : ¬ h ≤ 0 := by linarith
  have ha0 : ¬ a ≤ 0 := by linarith
  have hc0 : ¬ c ≤ 0 := by linarith
  unfold validate_common_inputs
  rw [validateField_pos hw0, ok_bind, validateField_pos hh0, ok_bind,
    validateField_pos ha0, ok_bind, validateField_pos hc0, ok_bind]
  rw [if_neg (not_not_intro ⟨ha1, ha2⟩), if_neg (not_not_intro ⟨hw1, hw2⟩),
    if_neg (not_not_intro ⟨hh1, hh2⟩), if_neg (not_not_intro ⟨hc1, hc2⟩),
    if_pos hs]

theorem validate_inv {w h a c : ℚ} {s ns : List Char}
    (hok : validate_common_inputs (some w) (some h) (some a) s (some c) =
      Except.ok ns) :
    1 ≤ w ∧ w ≤ 1000 ∧ 30 ≤ h ∧ h ≤ 300 ∧ 1 ≤ a ∧ a ≤ 120 ∧
      1 ≤ c ∧ c ≤ 1000 ∧
      (normalizeSex s = maleStr ∨ normalizeSex s = femaleStr) ∧
      ns = normalizeSex s := by
  unfold validate_common_inputs at hok
  obtain ⟨w', hw', hok⟩ := exceptBind_ok_inv hok
  obtain ⟨h', hh', hok⟩ := exceptBind_ok_inv hok
  obtain ⟨a', ha', hok⟩ := exceptBind_ok_inv hok
  obtain ⟨c', hc', hok⟩ := exceptBind_ok_inv hok
  obtain ⟨hw0, hww⟩ := validateField_ok_inv hw'
  obtain ⟨hh0, hhh⟩ := validateField_ok_inv hh'
  obtain ⟨ha0, haa⟩ := validateField_ok_inv ha'
  obtain ⟨hc0, hcc⟩ := validateField_ok_inv hc'
  rw [hww, hhh, haa, hcc] at hok
  by_cases h1 : ¬(1 ≤ a ∧ a ≤ 120)
  · rw [if_pos h1] at hok
    exact absurd hok (by simp)
  rw [if_neg h1] at hok
  by_cases h2 : ¬(1 ≤ w ∧ w ≤ 1000)
  · rw [if_pos h2] at hok
    exact absurd hok (by simp)
  rw [if_neg h2] at hok
  by_cases h3 : ¬(30 ≤ h ∧ h ≤ 300)
  · rw [if_pos h3] at hok
    exact absurd hok (by simp)
  rw [if_neg h3] at hok
  by_cases h4 : ¬(1 ≤ c ∧ c ≤ 1000)
  · rw [if_pos h4] at hok
    exact absurd hok (by simp)
  rw [if_neg h4] at hok
  push_neg at h1 h2 h3 h4
  by_cases h5 : normalizeSex s = maleStr ∨ normalizeSex s = femaleStr
  · simp only [if_pos h5] at hok
    exact ⟨h2.1, h2.2, h3.1, h3.2, h1.1, h1.2, h4.1, h4.2, h5,
      ((Except.ok.injEq _ _).mp hok).symm⟩
  · simp only [if_neg h5] at hok
    exact absurd hok (by simp)

theorem calculate_bmi_ok {w h : ℚ} (hh : 0 < h) :
    calculate_bmi w h = Except.ok (w / (h / 100) ^ 2) := by
  have : ¬ h / 100 ≤ 0 := by
    push_neg
    positivity
  simp [calculate_bmi, this]

theorem calculate_ibw_ok {h : ℚ} (s : List Char)
    (hin : 60 < cm_to_inches h) :
    calculate_ibw h s = Except.ok (devineIbw h s, cm_to_inches h) := by
  have h60 : ¬ cm_to_inches h ≤ 60 := not_le.mpr hin
  have hpos : ¬ devineIbw h s ≤ 0 := by
    unfold devineIbw
    split_ifs <;> push_neg <;> nlinarith [hin]
  unfold calculate_ibw
  rw [if_neg h60]
  simp only [devineIbw] at hpos ⊢
  split_ifs at hpos ⊢ <;> simp_all

theorem calculate_ibw_err {h : ℚ} (s : List Char)
    (hin : cm_to_inches h ≤ 60) :
    calculate_ibw h s = Except.error msgIbwRange := by
  unfold calculate_ibw
  rw [if_pos hin]

theorem calculate_ibw_ok_inv {h : ℚ} {s : List Char} {i hi : ℚ}
    (hok : calculate_ibw h s = Except.ok (i, hi)) :
    60 < cm_to_inches h ∧ hi = cm_to_inches h ∧ i = devineIbw h s ∧
      0 < i := by
  by_cases h60 : cm_to_inches h ≤ 60
  · rw [calculate_ibw_err s h60] at hok
    exact absurd hok (by simp)
  · push_neg at h60
    rw [calculate_ibw_ok s h60] at hok
    have := (Except.ok.injEq _ _).mp hok
    have h1 : i = devineIbw h s := by
      have := congrArg Prod.fst this
      simpa using this.symm
    have h2 : hi = cm_to_inches h := by
      have := congrArg Prod.snd this
      simpa using this.symm
    refine ⟨h60, h2, h1, ?_⟩
    rw [h1]
    unfold devineIbw
    split_ifs <;> nlinarith [h60]

theorem devineIbw_ge {h : ℚ} (s : List Char) (hin : 60 < cm_to_inches h) :
    45.5 ≤ devineIbw h s := by
  unfold devineIbw
  split_ifs <;> nlinarith [hin]

theorem calculate_dosing_weight_normal {w h : ℚ} (s : List Char)
    (hh : 0 < h) (hbmi : w / (h / 100) ^ 2 < OBESITY_BMI_THRESHOLD) :
    calculate_dosing_weight w h s = Except.ok (w,
      { bmi := w / (h / 100) ^ 2, pathway := normalPathway,
        height_inches := cm_to_inches h, ibw := none }) := by
  unfold calculate_dosing_weight
  rw [calculate_bmi_ok hh, ok_bind, if_pos hbmi]

theorem calculate_dosing_weight_adjusted {w h : ℚ} (s : List Char)
    (hh : 0 < h) (hbmi : OBESITY_BMI_THRESHOLD ≤ w / (h / 100) ^ 2)
    (hin : 60 < cm_to_inches h) :
    calculate_dosing_weight w h s = Except.ok
      (devineIbw h s + 0.4 * (w - devineIbw h s),
      { bmi := w / (h / 100) ^ 2, pathway := adjustedPathway,
        height_inches := cm_to_inches h, ibw := some (devineIbw h s) }) := by
  unfold calculate_dosing_weight
  rw [calculate_bmi_ok hh, ok_bind, if_neg (not_lt.mpr hbmi),
    calculate_ibw_ok s hin, ok_bind]

theorem calculate_dosing_weight_short {w h : ℚ} (s : List Char)
    (hh : 0 < h) (hbmi : OBESITY_BMI_THRESHOLD ≤ w / (h / 100) ^ 2)
    (hin : cm_to_inches h ≤ 60) :
    calculate_dosing_weight w h s = Except.error msgIbwRange := by
  unfold calculate_dosing_weight
  rw [calculate_bmi_ok hh, ok_bind, if_neg (not_lt.mpr hbmi),
    calculate_ibw_err s hin]
  rfl

theorem calculate_dosing_weight_inv {w h : ℚ} {s : List Char} {dw : ℚ}
    {det : WeightDetails}
    (hh : 0 < h)
    (hok : calculate_dosing_weight w h s = Except.ok (dw, det)) :
    det.bmi = w / (h / 100) ^ 2 ∧
    det.height_inches = cm_to_inches h ∧
    ((det.bmi < OBESITY_BMI_THRESHOLD ∧ det.pathway = normalPathway ∧
        dw = w ∧ det.ibw = none) ∨
      (OBESITY_BMI_THRESHOLD ≤ det.bmi ∧ det.pathway = adjustedPathway ∧
        60 < cm_to_inches h ∧ det.ibw = some (devineIbw h s) ∧
        dw = devineIbw h s + 0.4 * (w - devineIbw h s))) := by
  by_cases hbmi : w / (h / 100) ^ 2 < OBESITY_BMI_THRESHOLD
  · rw [calculate_dosing_weight_normal s hh hbmi] at hok
    have := (Except.ok.injEq _ _).mp hok
    have h1 : dw = w := (congrArg Prod.fst this).symm
    have h2 : det =
        { bmi := w / (h / 100) ^ 2, pathway := normalPathway,
          height_inches := cm_to_inches h, ibw := none } :=
      (congrArg Prod.snd this).symm
    subst h2
    exact ⟨rfl, rfl, Or.inl ⟨hbmi, rfl, h1, rfl⟩⟩
  · push_neg at hbmi
    by_cases hin : cm_to_inches h ≤ 60
    · rw [calculate_dosing_weight_short s hh hbmi hin] at hok
      exact absurd hok (by simp)
    · push_neg at hin
      rw [calculate_dosing_weight_adjusted s hh hbmi hin] at hok
      have := (Except.ok.injEq _ _).mp hok
      have h1 : dw = devineIbw h s + 0.4 * (w - devineIbw h s) :=
        (congrArg Prod.fst this).symm
      have h2 : det =
          { bmi := w / (h / 100) ^ 2, pathway := adjustedPathway,
            height_inches := cm_to_inches h,
            ibw := some (devineIbw h s) } :=
        (congrArg Prod.snd this).symm
      subst h2
      exact ⟨rfl, rfl, Or.inr ⟨hbmi, rfl, hin, rfl, h1⟩⟩

theorem calculate_creatinine_clearance_ok {a w c : ℚ} (s : List Char)
    (hc : 0 < c) :
    calculate_creatinine_clearance a w s c =
      Except.ok ((140 - a) * w * sexFactor s / c) := by
  unfold calculate_creatinine_clearance sexFactor
  rw [if_neg (not_le.mpr hc)]

theorem calculate_creatinine_clearance_ok_inv {a w c : ℚ}
    {s : List Char} {crcl : ℚ}
    (hok : calculate_creatinine_clearance a w s c = Except.ok crcl) :
    0 < c ∧ crcl = (140 - a) * w * sexFactor s / c := by
  by_cases hc : c ≤ 0
  · unfold calculate_creatinine_clearance at hok
    rw [if_pos hc] at hok
    exact absurd hok (by simp)
  · push_neg at hc
    rw [calculate_creatinine_clearance_ok s hc] at hok
    exact ⟨hc, ((Except.ok.injEq _ _).mp hok).symm⟩

theorem calculate_dose_eq {w h a c : ℚ} {s ns : List Char} {dw : ℚ}
    {det : WeightDetails} {crcl : ℚ}
    (hv : validate_common_inputs (some w) (some h) (some a) s (some c) =
      Except.ok ns)
    (hdw : calculate_dosing_weight w h ns = Except.ok (dw, det))
    (hcr : calculate_creatinine_clearance a w ns c = Except.ok crcl) :
    calculate_dose w h a s c = Except.ok
      { bmi := det.bmi, pathway := det.pathway,
        height_inches := det.height_inches, ibw := det.ibw,
        dosing_weight := dw, creatinine_clearance := crcl,
        dose_info := bandDose crcl dw, weight_lbs := kg_to_lbs w,
        height_feet := (inches_to_feet_inches det.height_inches).1,
        height_inches_remainder :=
          (inches_to_feet_inches det.height_inches).2 } := by
  unfold calculate_dose
  rw [hv, ok_bind, hdw, ok_bind, hcr, ok_bind]
  rfl

theorem calculate_dose_inv {w h a c : ℚ} {s : List Char} {r : DoseResult}
    (hok : calculate_dose w h a s c = Except.ok r) :
    ∃ ns dw det crcl,
      validate_common_inputs (some w) (some h) (some a) s (some c) =
        Except.ok ns ∧
      calculate_dosing_weight w h ns = Except.ok (dw, det) ∧
      calculate_creatinine_clearance a w ns c = Except.ok crcl ∧
      r = { bmi := det.bmi, pathway := det.pathway,
            height_inches := det.height_inches, ibw := det.ibw,
            dosing_weight := dw, creatinine_clearance := crcl,
            dose_info := bandDose crcl dw, weight_lbs := kg_to_lbs w,
            height_feet := (inches_to_feet_inches det.height_inches).1,
            height_inches_remainder :=
              (inches_to_feet_inches det.height_inches).2 } := by
  unfold calculate_dose at hok
  obtain ⟨ns, hns, hok⟩ := exceptBind_ok_inv hok
  obtain ⟨pd, hpd, hok⟩ := exceptBind_ok_inv hok
  obtain ⟨crcl, hcrcl, hok⟩ := exceptBind_ok_inv hok
  refine ⟨ns, pd.1, pd.2, crcl, hns, hpd, hcrcl, ?_⟩
  exact ((Except.ok.injEq _ _).mp hok).symm

theorem error_bind {α β : Type} (e : String) (f : α → Except String β) :
    (Except.error e >>= f : Except String β) = Except.error e := rfl

theorem validateField_none {rm pm : String} :
    validateField rm pm none = Except.error rm := rfl

theorem validateField_nonpos {rm pm : String} {v : ℚ} (h : v ≤ 0) :
    validateField rm pm (some v) = Except.error pm := by
  simp [validateField, h]

theorem validate_reduce {w h a c : ℚ} (s : List Char)
    (hw : ¬ w ≤ 0) (hh : ¬ h ≤ 0) (ha : ¬ a ≤ 0) (hc : ¬ c ≤ 0) :
    validate_common_inputs (some w) (some h) (some a) s (some c) =
      if ¬(1 ≤ a ∧ a ≤ 120) then Except.error msgAgeRange
      else if ¬(1 ≤ w ∧ w ≤ 1000) then Except.error msgWeightRange
      else if ¬(30 ≤ h ∧ h ≤ 300) then Except.error msgHeightRange
      else if ¬(1 ≤ c ∧ c ≤ 1000) then Except.error msgCreatinineRange
      else if normalizeSex s = maleStr ∨ normalizeSex s = femaleStr then
        Except.ok (normalizeSex s)
      else Except.error msgSex := by
  unfold validate_common_inputs
  rw [validateField_pos hw, ok_bind, validateField_pos hh, ok_bind,
    validateField_pos ha, ok_bind, validateField_pos hc, ok_bind]

theorem validate_err_sex {w h a c : ℚ} (s : List Char)
    (hw1 : 1 ≤ w) (hw2 : w ≤ 1000) (hh1 : 30 ≤ h) (hh2 : h ≤ 300)
    (ha1 : 1 ≤ a) (ha2 : a ≤ 120) (hc1 : 1 ≤ c) (hc2 : c ≤ 1000)
    (hs : ¬(normalizeSex s = maleStr ∨ normalizeSex s = femaleStr)) :
    validate_common_inputs (some w) (some h) (some a) s (some c) =
      Except.error msgSex := by
  rw [validate_reduce s (by linarith) (by linarith) (by linarith)
    (by linarith)]
  rw [if_neg (not_not_intro ⟨ha1, ha2⟩), if_neg (not_not_intro ⟨hw1, hw2⟩),
    if_neg (not_not_intro ⟨hh1, hh2⟩), if_neg (not_not_intro ⟨hc1, hc2⟩),
    if_neg hs]

theorem low_le_high : LOW_CRCL_THRESHOLD ≤ HIGH_CRCL_THRESHOLD := by
  norm_num [LOW_CRCL_THRESHOLD, HIGH_CRCL_THRESHOLD]

theorem bandDose_high {crcl dw : ℚ} (h : HIGH_CRCL_THRESHOLD < crcl) :
    bandDose crcl dw = DoseInfo.dose
      (min MAX_DOSE_MG (round_to_nearest_10 (5.0 * dw))) basis5 := by
  unfold bandDose
  rw [if_pos h]

theorem bandDose_mid {crcl dw : ℚ} (h1 : LOW_CRCL_THRESHOLD ≤ crcl)
    (h2 : crcl ≤ HIGH_CRCL_THRESHOLD) :
    bandDose crcl dw = DoseInfo.dose
      (min MAX_DOSE_MG (round_to_nearest_10 (3.0 * dw))) basis3 := by
  unfold bandDose
  rw [if_neg (not_lt.mpr h2), if_pos ⟨h1, h2⟩]

theorem bandDose_low {crcl dw : ℚ} (h : crcl < LOW_CRCL_THRESHOLD) :
    bandDose crcl dw = DoseInfo.advisory advisoryText := by
  have hle := low_le_high
  unfold bandDose
  rw [if_neg (by push_neg; linarith), if_neg (by rintro ⟨h1, -⟩; linarith)]

theorem maleStr_ne_femaleStr : maleStr ≠ femaleStr := by decide

theorem sexFactor_of_normalized {s : List Char}
    (hs : normalizeSex s = maleStr ∨ normalizeSex s = femaleStr) :
    sexFactor (normalizeSex s) = sexFactor s := by
  rcases hs with hs | hs <;> rw [hs] <;> unfold sexFactor
  · rw [if_pos normalizeSex_male, if_pos hs]
  · rw [if_neg (by rw [normalizeSex_female]; exact maleStr_ne_femaleStr.symm),
      if_neg (by rw [hs]; exact maleStr_ne_femaleStr.symm)]

theorem devineIbw_of_normalized {s : List Char}
    (hs : normalizeSex s = maleStr ∨ normalizeSex s = femaleStr) (h : ℚ) :
    devineIbw h (normalizeSex s) = devineIbw h s := by
  rcases hs with hs | hs <;> rw [hs] <;> unfold devineIbw
  · rw [if_pos normalizeSex_male, if_pos hs]
  · rw [if_neg (by rw [normalizeSex_female]; exact maleStr_ne_femaleStr.symm),
      if_neg (by rw [hs]; exact maleStr_ne_femaleStr.symm)]

theorem sexFactor_male : sexFactor maleStr = 1.23 := by
  unfold sexFactor
  rw [if_pos normalizeSex_male]

theorem sexFactor_female : sexFactor femaleStr = 1.04 := by
  unfold sexFactor
  rw [if_neg (by rw [normalizeSex_female]; exact maleStr_ne_femaleStr.symm)]

theorem min_dose_props {x : ℚ} (hx : 0 < x) :
    (10 : ℤ) ∣ min MAX_DOSE_MG (round_to_nearest_10 x) ∧
      0 ≤ min MAX_DOSE_MG (round_to_nearest_10 x) := by
  constructor
  · rcases le_total MAX_DOSE_MG (round_to_nearest_10 x) with hle | hle
    · rw [min_eq_left hle]
      norm_num [MAX_DOSE_MG]
    · rw [min_eq_right hle]
      exact ⟨⌊x / 10 + 0.5⌋, mul_comm _ _⟩
  · have h0 : (0 : ℚ) ≤ x / 10 + 0.5 := by positivity
    have hfl : 0 ≤ ⌊x / 10 + 0.5⌋ := Int.floor_nonneg.mpr h0
    have : 0 ≤ round_to_nearest_10 x := by
      unfold round_to_nearest_10
      positivity
    exact le_min (by norm_num [MAX_DOSE_MG]) this

-- ------------------------------------------------------------------
-- Claim theorems.
-- ------------------------------------------------------------------

/-- C8: `round_to_nearest_10` is idempotent: applying it to its own
result (re-read as a number) returns the same value. -/
theorem round_to_nearest_10_idempotent (x : ℚ) :
    round_to_nearest_10 ((round_to_nearest_10 x : ℤ) : ℚ) =
      round_to_nearest_10 x := by
  unfold round_to_nearest_10
  set k := ⌊x / 10 + 0.5⌋ with hk
  have h1 : ((k * 10 : ℤ) : ℚ) / 10 + 0.5 = (k : ℚ) + 0.5 := by
    push_cast
    ring
  rw [h1]
  have h2 : ⌊(k : ℚ) + 0.5⌋ = k := by
    rw [add_comm, Int.floor_add_int]
    norm_num
  rw [h2]

/-- C7: whenever the height exceeds 60 inches (the only way past the
range check in `calculate_ibw`), the function succeeds and the computed
IBW is at least 45.5 kg, hence strictly positive for both sexes: the
non-physiologic (`IBW ≤ 0`) error branch can never fire. -/
theorem nonphysiologic_ibw_unreachable (h : ℚ) (s : List Char)
    (hin : 60 < cm_to_inches h) :
    calculate_ibw h s = Except.ok (devineIbw h s, cm_to_inches h) ∧
      45.5 ≤ devineIbw h s ∧ 0 < devineIbw h s := by
  have hge := devineIbw_ge s hin
  exact ⟨calculate_ibw_ok s hin, hge, by linarith⟩

/-- Witness for C7 at height 170 cm (66.9 in) with sex male. -/
theorem nonphysiologic_ibw_unreachable_witness :
    calculate_ibw 170 maleStr =
      Except.ok (devineIbw 170 maleStr, cm_to_inches 170) ∧
      45.5 ≤ devineIbw 170 maleStr ∧ 0 < devineIbw 170 maleStr :=
  nonphysiologic_ibw_unreachable 170 maleStr
    (by norm_num [cm_to_inches])

/-- C1: on every successful run of `calculate_dose`, the dose outcome is
resolved from the creatinine clearance in three bands with inclusive
boundaries: above 30 a 5 mg/kg dose, between 20 and 30 inclusive a
3 mg/kg dose, and below 20 the advisory string as a normal successful
result carrying no dose value. -/
theorem dose_bands_by_crcl (w h a c : ℚ) (s : List Char) (r : DoseResult)
    (hok : calculate_dose w h a s c = Except.ok r) :
    (HIGH_CRCL_THRESHOLD < r.creatinine_clearance →
      r.dose_info = DoseInfo.dose
        (min MAX_DOSE_MG (round_to_nearest_10 (5.0 * r.dosing_weight)))
        basis5) ∧
    (LOW_CRCL_THRESHOLD ≤ r.creatinine_clearance ∧
        r.creatinine_clearance ≤ HIGH_CRCL_THRESHOLD →
      r.dose_info = DoseInfo.dose
        (min MAX_DOSE_MG (round_to_nearest_10 (3.0 * r.dosing_weight)))
        basis3) ∧
    (r.creatinine_clearance < LOW_CRCL_THRESHOLD →
      r.dose_info = DoseInfo.advisory advisoryText) := by
  obtain ⟨ns, dw, det, crcl, hv, hdw, hcr, rfl⟩ := calculate_dose_inv hok
  refine ⟨?_, ?_, ?_⟩ <;> intro hband <;> dsimp only at hband ⊢
  · exact bandDose_high hband
  · exact bandDose_mid hband.1 hband.2
  · exact bandDose_low hband

/-- C2: whenever a numeric dose is present, the clearance was at least
20 and the dose equals `min(480, floor(raw/10 + 0.5) * 10)` for
`raw = rate * dosing_weight` with the band rate; in particular it never
exceeds 480 mg. -/
theorem dose_formula_and_cap (w h a c : ℚ) (s : List Char)
    (r : DoseResult) (d : ℤ) (b : String)
    (hok : calculate_dose w h a s c = Except.ok r)
    (hd : r.dose_info = DoseInfo.dose d b) :
    LOW_CRCL_THRESHOLD ≤ r.creatinine_clearance ∧
    d = min MAX_DOSE_MG (round_to_nearest_10
      ((if HIGH_CRCL_THRESHOLD < r.creatinine_clearance then 5.0 else 3.0) *
        r.dosing_weight)) ∧
    d ≤ MAX_DOSE_MG := by
  have hle := low_le_high
  obtain ⟨ns, dw, det, crcl, hv, hdw, hcr, rfl⟩ := calculate_dose_inv hok
  dsimp only at hd ⊢
  by_cases hhigh : HIGH_CRCL_THRESHOLD < crcl
  · rw [bandDose_high hhigh] at hd
    obtain ⟨hd1, -⟩ := DoseInfo.dose.inj hd.symm
    rw [if_pos hhigh]
    exact ⟨by linarith, hd1, by rw [hd1]; exact min_le_left _ _⟩
  · push_neg at hhigh
    by_cases hlow : LOW_CRCL_THRESHOLD ≤ crcl
    · rw [bandDose_mid hlow hhigh] at hd
      obtain ⟨hd1, -⟩ := DoseInfo.dose.inj hd.symm
      rw [if_neg (not_lt.mpr hhigh)]
      exact ⟨hlow, hd1, by rw [hd1]; exact min_le_left _ _⟩
    · push_neg at hlow
      rw [bandDose_low hlow] at hd
      exact absurd hd (by simp)

/-- Spec scenario: 85 kg, 175 cm, 45 y, male, creatinine 120 µmol/L. -/
def R85 : DoseResult := resultOf (calculate_dose 85 175 45 maleStr 120)

theorem validate85 :
    validate_common_inputs (some 85) (some 175) (some 45) maleStr
      (some 120) = Except.ok maleStr := by
  have := validate_ok 85 175 45 120 maleStr (by norm_num) (by norm_num)
    (by norm_num) (by norm_num) (by norm_num) (by norm_num) (by norm_num)
    (by norm_num) (Or.inl normalizeSex_male)
  rwa [normalizeSex_male] at this

theorem dosing85 : calculate_dosing_weight 85 175 maleStr = Except.ok (85,
    { bmi := 85 / (175 / 100) ^ 2, pathway := normalPathway,
      height_inches := cm_to_inches 175, ibw := none }) :=
  calculate_dosing_weight_normal maleStr (by norm_num)
    (by norm_num [OBESITY_BMI_THRESHOLD])

theorem clearance85 : calculate_creatinine_clearance 45 85 maleStr 120 =
    Except.ok ((140 - 45) * 85 * sexFactor maleStr / 120) :=
  calculate_creatinine_clearance_ok maleStr (by norm_num)

theorem calc85 : calculate_dose 85 175 45 maleStr 120 = Except.ok R85 := by
  have hok := calculate_dose_eq validate85 dosing85 clearance85
  rw [hok]
  simp only [R85, hok, resultOf]

theorem R85_dose_info : R85.dose_info = DoseInfo.dose 430 basis5 := by
  have hok := calculate_dose_eq validate85 dosing85 clearance85
  simp only [R85, hok, resultOf]
  rw [sexFactor_male]
  rw [bandDose_high (by norm_num [HIGH_CRCL_THRESHOLD])]
  norm_num [round_to_nearest_10, MAX_DOSE_MG]

/-- Spec scenario: 120 kg, 175 cm, 45 y, male, creatinine 120 µmol/L
(obese: adjusted-weight pathway). -/
def R120 : DoseResult := resultOf (calculate_dose 120 175 45 maleStr 120)

theorem validate120 :
    validate_common_inputs (some 120) (some 175) (some 45) maleStr
      (some 120) = Except.ok maleStr := by
  have := validate_ok 120 175 45 120 maleStr (by norm_num) (by norm_num)
    (by norm_num) (by norm_num) (by norm_num) (by norm_num) (by norm_num)
    (by norm_num) (Or.inl normalizeSex_male)
  rwa [normalizeSex_male] at this

theorem dosing120 : calculate_dosing_weight 120 175 maleStr = Except.ok
    (devineIbw 175 maleStr + 0.4 * (120 - devineIbw 175 maleStr),
    { bmi := 120 / (175 / 100) ^ 2, pathway := adjustedPathway,
      height_inches := cm_to_inches 175,
      ibw := some (devineIbw 175 maleStr) }) :=
  calculate_dosing_weight_adjusted maleStr (by norm_num)
    (by norm_num [OBESITY_BMI_THRESHOLD]) (by norm_num [cm_to_inches])

theorem clearance120 : calculate_creatinine_clearance 45 120 maleStr 120 =
    Except.ok ((140 - 45) * 120 * sexFactor maleStr / 120) :=
  calculate_creatinine_clearance_ok maleStr (by norm_num)

theorem calc120 : calculate_dose 120 175 45 maleStr 120 =
    Except.ok R120 := by
  have hok := calculate_dose_eq validate120 dosing120 clearance120
  rw [hok]
  simp only [R120, hok, resultOf]

theorem normal_ne_adjusted : normalPathway ≠ adjustedPathway := by decide

/-- Witness for C1: the 85 kg scenario exercises the 5 mg/kg band. -/
theorem dose_bands_by_crcl_witness :
    calculate_dose 85 175 45 maleStr 120 = Except.ok R85 ∧
    ((HIGH_CRCL_THRESHOLD < R85.creatinine_clearance →
      R85.dose_info = DoseInfo.dose
        (min MAX_DOSE_MG (round_to_nearest_10 (5.0 * R85.dosing_weight)))
        basis5) ∧
    (LOW_CRCL_THRESHOLD ≤ R85.creatinine_clearance ∧
        R85.creatinine_clearance ≤ HIGH_CRCL_THRESHOLD →
      R85.dose_info = DoseInfo.dose
        (min MAX_DOSE_MG (round_to_nearest_10 (3.0 * R85.dosing_weight)))
        basis3) ∧
    (R85.creatinine_clearance < LOW_CRCL_THRESHOLD →
      R85.dose_info = DoseInfo.advisory advisoryText)) :=
  ⟨calc85, dose_bands_by_crcl 85 175 45 120 maleStr R85 calc85⟩

/-- Witness for C2: in the 85 kg scenario the dose is 430 mg, which is
`min(480, round10(5 * 85))`, and is at most 480. -/
theorem dose_formula_and_cap_witness :
    LOW_CRCL_THRESHOLD ≤ R85.creatinine_clearance ∧
    (430 : ℤ) = min MAX_DOSE_MG (round_to_nearest_10
      ((if HIGH_CRCL_THRESHOLD < R85.creatinine_clearance then 5.0 else 3.0) *
        R85.dosing_weight)) ∧
    (430 : ℤ) ≤ MAX_DOSE_MG :=
  dose_formula_and_cap 85 175 45 120 maleStr R85 430 basis5 calc85
    R85_dose_info

/-- C3: on every successful run, the reported BMI is
`weight / (height_cm/100)^2`, the pathway is AdjustedWeight iff that BMI
is at least 30 (NormalWeight iff it is below 30), the dosing weight is
the actual weight with no `ibw` on the normal pathway, and on the
adjusted pathway the `ibw` field holds the Devine IBW and the dosing
weight is `IBW + 0.4 * (weight - IBW)`. -/
theorem pathway_and_dosing_weight (w h a c : ℚ) (s : List Char)
    (r : DoseResult) (hok : calculate_dose w h a s c = Except.ok r) :
    r.bmi = w / (h / 100) ^ 2 ∧
    (r.pathway = adjustedPathway ↔ OBESITY_BMI_THRESHOLD ≤ r.bmi) ∧
    (r.pathway = normalPathway ↔ r.bmi < OBESITY_BMI_THRESHOLD) ∧
    (r.pathway = normalPathway → r.dosing_weight = w ∧ r.ibw = none) ∧
    (r.pathway = adjustedPathway →
      r.ibw = some (devineIbw h s) ∧
      r.dosing_weight = devineIbw h s + 0.4 * (w - devineIbw h s)) := by
  obtain ⟨ns, dw, det, crcl, hv, hdw, hcr, rfl⟩ := calculate_dose_inv hok
  obtain ⟨hw1, hw2, hh1, hh2, ha1, ha2, hc1, hc2, hs, hns⟩ :=
    validate_inv hv
  have hh0 : 0 < h := by linarith
  subst hns
  obtain ⟨hbmi, hhi, hcases⟩ := calculate_dosing_weight_inv hh0 hdw
  dsimp only
  rcases hcases with ⟨hlt, hpath, hdww, hibw⟩ |
    ⟨hge, hpath, hin, hibw, hdww⟩
  · refine ⟨hbmi, ?_, ?_, fun _ => ⟨hdww, hibw⟩, ?_⟩
    · exact ⟨fun hp => absurd (hpath ▸ hp) (by decide),
        fun hge => absurd hge (not_le.mpr hlt)⟩
    · exact ⟨fun _ => hlt, fun _ => hpath⟩
    · intro hp
      exact absurd (hpath ▸ hp) (by decide)
  · rw [devineIbw_of_normalized hs] at hibw hdww
    refine ⟨hbmi, ?_, ?_, ?_, fun _ => ⟨hibw, hdww⟩⟩
    · exact ⟨fun _ => hge, fun _ => hpath⟩
    · exact ⟨fun hp => absurd (hpath ▸ hp) (by decide),
        fun hlt => absurd hge (not_le.mpr hlt)⟩
    · intro hp
      exact absurd (hpath ▸ hp) (by decide)

/-- Witness for C3: the 120 kg scenario takes the adjusted pathway. -/
theorem pathway_and_dosing_weight_witness :
    calculate_dose 120 175 45 maleStr 120 = Except.ok R120 ∧
    (R120.bmi = 120 / (175 / 100) ^ 2 ∧
    (R120.pathway = adjustedPathway ↔
      OBESITY_BMI_THRESHOLD ≤ R120.bmi) ∧
    (R120.pathway = normalPathway ↔ R120.bmi < OBESITY_BMI_THRESHOLD) ∧
    (R120.pathway = normalPathway →
      R120.dosing_weight = 120 ∧ R120.ibw = none) ∧
    (R120.pathway = adjustedPathway →
      R120.ibw = some (devineIbw 175 maleStr) ∧
      R120.dosing_weight = devineIbw 175 maleStr +
        0.4 * (120 - devineIbw 175 maleStr))) :=
  ⟨calc120, pathway_and_dosing_weight 120 175 45 120 maleStr R120 calc120⟩

/-- C4: on every successful run the creatinine clearance equals the
Cockcroft-Gault value `(140 - age) * actual_weight * sex_factor /
creatinine` computed from the ACTUAL body weight passed in, with factor
1.23 for male and 1.04 otherwise. -/
theorem crcl_uses_actual_weight (w h a c : ℚ) (s : List Char)
    (r : DoseResult) (hok : calculate_dose w h a s c = Except.ok r) :
    r.creatinine_clearance =
      (140 - a) * w *
        (if normalizeSex s = maleStr then 1.23 else 1.04) / c := by
  obtain ⟨ns, dw, det, crcl, hv, hdw, hcr, rfl⟩ := calculate_dose_inv hok
  obtain ⟨-, -, -, -, -, -, -, -, hs, hns⟩ := validate_inv hv
  obtain ⟨hc0, hcrcl⟩ := calculate_creatinine_clearance_ok_inv hcr
  dsimp only
  rw [hcrcl, hns, sexFactor_of_normalized hs]
  rfl

/-- Witness for C4: in the 120 kg scenario the clearance is computed
from the actual 120 kg even though dosing used the adjusted weight. -/
theorem crcl_uses_actual_weight_witness :
    R120.creatinine_clearance =
      (140 - 45) * 120 *
        (if normalizeSex maleStr = maleStr then 1.23 else 1.04) / 120 :=
  crcl_uses_actual_weight 120 175 45 120 maleStr R120 calc120

/-- C6: for validated inputs on the adjusted pathway (BMI at least 30),
`calculate_dose` fails with the IBW range error exactly when the height
is at most 60 inches; on the normal pathway (BMI below 30) the call
always succeeds, whatever the height. -/
theorem ibw_error_exactly_when_short (w h a c : ℚ) (s : List Char)
    (hw1 : 1 ≤ w) (hw2 : w ≤ 1000) (hh1 : 30 ≤ h) (hh2 : h ≤ 300)
    (ha1 : 1 ≤ a) (ha2 : a ≤ 120) (hc1 : 1 ≤ c) (hc2 : c ≤ 1000)
    (hs : normalizeSex s = maleStr ∨ normalizeSex s = femaleStr) :
    (OBESITY_BMI_THRESHOLD ≤ w / (h / 100) ^ 2 →
      (calculate_dose w h a s c = Except.error msgIbwRange ↔
        cm_to_inches h ≤ 60)) ∧
    (w / (h / 100) ^ 2 < OBESITY_BMI_THRESHOLD →
      ∃ r, calculate_dose w h a s c = Except.ok r) := by
  have hh0 : 0 < h := by linarith
  have hc0 : 0 < c := by linarith
  have hv := validate_ok w h a c s hw1 hw2 hh1 hh2 ha1 ha2 hc1 hc2 hs
  constructor
  · intro hbmi
    constructor
    · intro herr
      by_contra hgt
      push_neg at hgt
      have hok := calculate_dose_eq hv
        (calculate_dosing_weight_adjusted (normalizeSex s) hh0 hbmi hgt)
        (calculate_creatinine_clearance_ok (normalizeSex s) hc0)
      rw [herr] at hok
      exact absurd hok (by simp)
    · intro hle
      unfold calculate_dose
      rw [hv, ok_bind,
        calculate_dosing_weight_short (normalizeSex s) hh0 hbmi hle,
        error_bind]
  · intro hbmi
    exact ⟨_, calculate_dose_eq hv
      (calculate_dosing_weight_normal (normalizeSex s) hh0 hbmi)
      (calculate_creatinine_clearance_ok (normalizeSex s) hc0)⟩

/-- Witness for C6: 90 kg, 150 cm, 40 y, female, creatinine 100 —
BMI 40 but 150 cm is 59.06 in, so the IBW range error is raised. -/
theorem ibw_error_exactly_when_short_witness :
    calculate_dose 90 150 40 femaleStr 100 = Except.error msgIbwRange :=
  ((ibw_error_exactly_when_short 90 150 40 100 femaleStr (by norm_num)
      (by norm_num) (by norm_num) (by norm_num) (by norm_num) (by norm_num)
      (by norm_num) (by norm_num) (Or.inr normalizeSex_female)).1
    (by norm_num [OBESITY_BMI_THRESHOLD])).mpr
    (by norm_num [cm_to_inches])

/-- Minimal-dose scenario: 1 kg, 300 cm, 40 y, female, creatinine 5
(clearance 20.8, raw dose 3 mg, rounds to 0). -/
def RZ : DoseResult := resultOf (calculate_dose 1 300 40 femaleStr 5)

theorem validateZ :
    validate_common_inputs (some 1) (some 300) (some 40) femaleStr
      (some 5) = Except.ok femaleStr := by
  have := validate_ok 1 300 40 5 femaleStr (by norm_num) (by norm_num)
    (by norm_num) (by norm_num) (by norm_num) (by norm_num) (by norm_num)
    (by norm_num) (Or.inr normalizeSex_female)
  rwa [normalizeSex_female] at this

theorem dosingZ : calculate_dosing_weight 1 300 femaleStr = Except.ok (1,
    { bmi := 1 / (300 / 100) ^ 2, pathway := normalPathway,
      height_inches := cm_to_inches 300, ibw := none }) :=
  calculate_dosing_weight_normal femaleStr (by norm_num)
    (by norm_num [OBESITY_BMI_THRESHOLD])

theorem clearanceZ : calculate_creatinine_clearance 40 1 femaleStr 5 =
    Except.ok ((140 - 40) * 1 * sexFactor femaleStr / 5) :=
  calculate_creatinine_clearance_ok femaleStr (by norm_num)

theorem calcZ : calculate_dose 1 300 40 femaleStr 5 = Except.ok RZ := by
  have hok := calculate_dose_eq validateZ dosingZ clearanceZ
  rw [hok]
  simp only [RZ, hok, resultOf]

theorem RZ_dose_info : RZ.dose_info = DoseInfo.dose 0 basis3 := by
  have hok := calculate_dose_eq validateZ dosingZ clearanceZ
  simp only [RZ, hok, resultOf]
  rw [sexFactor_female]
  rw [bandDose_mid (by norm_num [LOW_CRCL_THRESHOLD])
    (by norm_num [HIGH_CRCL_THRESHOLD])]
  norm_num [round_to_nearest_10, MAX_DOSE_MG]

/-- C9: every dose the engine emits is a non-negative multiple of 10 mg,
and a zero dose is attainable on validated inputs (1 kg in the 3 mg/kg
band): no positive minimum dose is enforced. -/
theorem dose_multiple_of_ten_and_zero_attainable :
    (∀ (w h a c : ℚ) (s : List Char) (r : DoseResult) (d : ℤ) (b : String),
      calculate_dose w h a s c = Except.ok r →
      r.dose_info = DoseInfo.dose d b → (10 : ℤ) ∣ d ∧ 0 ≤ d) ∧
    (∃ (w h a c : ℚ) (s : List Char) (r : DoseResult),
      calculate_dose w h a s c = Except.ok r ∧
      r.dose_info = DoseInfo.dose 0 basis3) := by
  constructor
  · rintro w h a c s r d b hok hd
    obtain ⟨ns, dw, det, crcl, hv, hdw, hcr, rfl⟩ := calculate_dose_inv hok
    obtain ⟨hw1, -, hh1, -, -, -, -, -, -, -⟩ := validate_inv hv
    have hh0 : 0 < h := by linarith
    obtain ⟨-, -, hcases⟩ := calculate_dosing_weight_inv hh0 hdw
    have hdw0 : 0 < dw := by
      rcases hcases with ⟨-, -, rfl, -⟩ | ⟨-, -, hin, -, rfl⟩
      · linarith
      · have := devineIbw_ge ns hin
        nlinarith
    dsimp only at hd
    by_cases hhigh : HIGH_CRCL_THRESHOLD < crcl
    · rw [bandDose_high hhigh] at hd
      obtain ⟨hd1, -⟩ := DoseInfo.dose.inj hd.symm
      rw [hd1]
      exact min_dose_props (by positivity)
    · push_neg at hhigh
      by_cases hlow : LOW_CRCL_THRESHOLD ≤ crcl
      · rw [bandDose_mid hlow hhigh] at hd
        obtain ⟨hd1, -⟩ := DoseInfo.dose.inj hd.symm
        rw [hd1]
        exact min_dose_props (by positivity)
      · push_neg at hlow
        rw [bandDose_low hlow] at hd
        exact absurd hd (by simp)
  · exact ⟨1, 300, 40, 5, femaleStr, RZ, calcZ, RZ_dose_info⟩

/-- Witness for C9: the 1 kg scenario yields the dose 0, a non-negative
multiple of 10. -/
theorem dose_multiple_of_ten_and_zero_attainable_witness :
    calculate_dose 1 300 40 femaleStr 5 = Except.ok RZ ∧
    RZ.dose_info = DoseInfo.dose 0 basis3 ∧
    ((10 : ℤ) ∣ 0 ∧ (0 : ℤ) ≤ 0) :=
  ⟨calcZ, RZ_dose_info,
    dose_multiple_of_ten_and_zero_attainable.1 1 300 40 5 femaleStr RZ 0
      basis3 calcZ RZ_dose_info⟩

/-- C10: called in isolation with a sex string that does not normalize
to "male", `calculate_creatinine_clearance` and `calculate_ibw` silently
use the female constants (factor 1.04, base 45.5) instead of raising;
such a sex is only rejected by the validator inside `calculate_dose`. -/
theorem isolated_sex_defaults_to_female (s : List Char)
    (hm : normalizeSex s ≠ maleStr) :
    (∀ a w c : ℚ, 0 < c →
      calculate_creatinine_clearance a w s c =
        Except.ok ((140 - a) * w * 1.04 / c)) ∧
    (∀ h : ℚ, 60 < cm_to_inches h →
      calculate_ibw h s =
        Except.ok (45.5 + 2.3 * (cm_to_inches h - 60), cm_to_inches h)) ∧
    (∀ w h a c : ℚ, 1 ≤ w → w ≤ 1000 → 30 ≤ h → h ≤ 300 → 1 ≤ a →
      a ≤ 120 → 1 ≤ c → c ≤ 1000 → normalizeSex s ≠ femaleStr →
      calculate_dose w h a s c = Except.error msgSex) := by
  have hf : sexFactor s = 1.04 := by
    unfold sexFactor
    rw [if_neg hm]
  refine ⟨?_, ?_, ?_⟩
  · intro a w c hc
    rw [calculate_creatinine_clearance_ok s hc, hf]
  · intro h hin
    have hd : devineIbw h s = 45.5 + 2.3 * (cm_to_inches h - 60) := by
      unfold devineIbw
      rw [if_neg hm]
    rw [calculate_ibw_ok s hin, hd]
  · intro w h a c hw1 hw2 hh1 hh2 ha1 ha2 hc1 hc2 hfem
    unfold calculate_dose
    rw [validate_err_sex s hw1 hw2 hh1 hh2 ha1 ha2 hc1 hc2
      (by rintro (h1 | h2)
          exacts [hm h1, hfem h2]), error_bind]

def otherStr : List Char := "other".data

/-- Witness for C10 with sex "other". -/
theorem isolated_sex_defaults_to_female_witness :
    calculate_creatinine_clearance 40 70 otherStr 100 =
      Except.ok ((140 - 40) * 70 * 1.04 / 100) ∧
    calculate_ibw 170 otherStr =
      Except.ok (45.5 + 2.3 * (cm_to_inches 170 - 60), cm_to_inches 170) ∧
    calculate_dose 70 170 40 otherStr 100 = Except.error msgSex := by
  have hm : normalizeSex otherStr ≠ maleStr := by decide
  obtain ⟨h1, h2, h3⟩ := isolated_sex_defaults_to_female otherStr hm
  exact ⟨h1 40 70 100 (by norm_num), h2 170 (by norm_num [cm_to_inches]),
    h3 70 170 40 100 (by norm_num) (by norm_num) (by norm_num)
      (by norm_num) (by norm_num) (by norm_num) (by norm_num) (by norm_num)
      (by decide)⟩

/-- C5: validation succeeds, returning the trimmed lower-cased sex, iff
the four numeric inputs are present and positive and within their
ranges (age [1,120], weight [1,1000], height [30,300], creatinine
[1,1000]) and the sex normalizes to "male" or "female"; each violation
produces the error message naming the violated rule (first failure in
source order), and a validation error makes `calculate_dose` fail with
that same error, so no calculation proceeds. -/
theorem validator_spec (ow oh oa oc : Option ℚ) (s : List Char) :
    (∀ t, validate_common_inputs ow oh oa s oc = Except.ok t ↔
      ((∃ w, ow = some w ∧ 0 < w ∧ 1 ≤ w ∧ w ≤ 1000) ∧
       (∃ h, oh = some h ∧ 0 < h ∧ 30 ≤ h ∧ h ≤ 300) ∧
       (∃ a, oa = some a ∧ 0 < a ∧ 1 ≤ a ∧ a ≤ 120) ∧
       (∃ c, oc = some c ∧ 0 < c ∧ 1 ≤ c ∧ c ≤ 1000) ∧
       (normalizeSex s = maleStr ∨ normalizeSex s = femaleStr) ∧
       t = normalizeSex s)) ∧
    (ow = none → validate_common_inputs ow oh oa s oc =
      Except.error msgWeightRequired) ∧
    (∀ w, ow = some w → w ≤ 0 → validate_common_inputs ow oh oa s oc =
      Except.error msgWeightPositive) ∧
    (∀ w, ow = some w → 0 < w → oh = none →
      validate_common_inputs ow oh oa s oc =
        Except.error msgHeightRequired) ∧
    (∀ w h, ow = some w → oh = some h → 0 < w → h ≤ 0 →
      validate_common_inputs ow oh oa s oc =
        Except.error msgHeightPositive) ∧
    (∀ w h, ow = some w → oh = some h → 0 < w → 0 < h → oa = none →
      validate_common_inputs ow oh oa s oc =
        Except.error msgAgeRequired) ∧
    (∀ w h a, ow = some w → oh = some h → oa = some a → 0 < w → 0 < h →
      a ≤ 0 → validate_common_inputs ow oh oa s oc =
        Except.error msgAgePositive) ∧
    (∀ w h a, ow = some w → oh = some h → oa = some a → 0 < w → 0 < h →
      0 < a → oc = none → validate_common_inputs ow oh oa s oc =
        Except.error msgCreatinineRequired) ∧
    (∀ w h a c, ow = some w → oh = some h → oa = some a → oc = some c →
      0 < w → 0 < h → 0 < a → c ≤ 0 →
      validate_common_inputs ow oh oa s oc =
        Except.error msgCreatininePositive) ∧
    (∀ w h a c, ow = some w → oh = some h → oa = some a → oc = some c →
      0 < w → 0 < h → 0 < a → 0 < c → ¬(1 ≤ a ∧ a ≤ 120) →
      validate_common_inputs ow oh oa s oc =
        Except.error msgAgeRange) ∧
    (∀ w h a c, ow = some w → oh = some h → oa = some a → oc = some c →
      0 < w → 0 < h → 0 < a → 0 < c → (1 ≤ a ∧ a ≤ 120) →
      ¬(1 ≤ w ∧ w ≤ 1000) → validate_common_inputs ow oh oa s oc =
        Except.error msgWeightRange) ∧
    (∀ w h a c, ow = some w → oh = some h → oa = some a → oc = some c →
      0 < w → 0 < h → 0 < a → 0 < c → (1 ≤ a ∧ a ≤ 120) →
      (1 ≤ w ∧ w ≤ 1000) → ¬(30 ≤ h ∧ h ≤ 300) →
      validate_common_inputs ow oh oa s oc =
        Except.error msgHeightRange) ∧
    (∀ w h a c, ow = some w → oh = some h → oa = some a → oc = some c →
      0 < w → 0 < h → 0 < a → 0 < c → (1 ≤ a ∧ a ≤ 120) →
      (1 ≤ w ∧ w ≤ 1000) → (30 ≤ h ∧ h ≤ 300) → ¬(1 ≤ c ∧ c ≤ 1000) →
      validate_common_inputs ow oh oa s oc =
        Except.error msgCreatinineRange) ∧
    (∀ w h a c, ow = some w → oh = some h → oa = some a → oc = some c →
      0 < w → 0 < h → 0 < a → 0 < c → (1 ≤ a ∧ a ≤ 120) →
      (1 ≤ w ∧ w ≤ 1000) → (30 ≤ h ∧ h ≤ 300) → (1 ≤ c ∧ c ≤ 1000) →
      ¬(normalizeSex s = maleStr ∨ normalizeSex s = femaleStr) →
      validate_common_inputs ow oh oa s oc = Except.error msgSex) ∧
    (∀ w h a c e, ow = some w → oh = some h → oa = some a → oc = some c →
      validate_common_inputs ow oh oa s oc = Except.error e →
      calculate_dose w h a s c = Except.error e) := by
  refine ⟨?_, ?_, ?_, ?_, ?_, ?_, ?_, ?_, ?_, ?_, ?_, ?_, ?_, ?_, ?_⟩
  · intro t
    constructor
    · intro hok
      rcases ow with _ | w
      · unfold validate_common_inputs at hok
        rw [validateField_none, error_bind] at hok
        exact absurd hok (by simp)
      rcases oh with _ | h
      · unfold validate_common_inputs at hok
        obtain ⟨w', hw', hok⟩ := exceptBind_ok_inv hok
        rw [validateField_none, error_bind] at hok
        exact absurd hok (by simp)
      rcases oa with _ | a
      · unfold validate_common_inputs at hok
        obtain ⟨w', hw', hok⟩ := exceptBind_ok_inv hok
        obtain ⟨h', hh', hok⟩ := exceptBind_ok_inv hok
        rw [validateField_none, error_bind] at hok
        exact absurd hok (by simp)
      rcases oc with _ | c
      · unfold validate_common_inputs at hok
        obtain ⟨w', hw', hok⟩ := exceptBind_ok_inv hok
        obtain ⟨h', hh', hok⟩ := exceptBind_ok_inv hok
        obtain ⟨a', ha', hok⟩ := exceptBind_ok_inv hok
        rw [validateField_none, error_bind] at hok
        exact absurd hok (by simp)
      obtain ⟨hw1, hw2, hh1, hh2, ha1, ha2, hc1, hc2, hs, hns⟩ :=
        validate_inv hok
      exact ⟨⟨w, rfl, by linarith, hw1, hw2⟩,
        ⟨h, rfl, by linarith, hh1, hh2⟩,
        ⟨a, rfl, by linarith, ha1, ha2⟩,
        ⟨c, rfl, by linarith, hc1, hc2⟩, hs, hns⟩
    · rintro ⟨⟨w, rfl, hw0, hw1, hw2⟩, ⟨h, rfl, hh0, hh1, hh2⟩,
        ⟨a, rfl, ha0, ha1, ha2⟩, ⟨c, rfl, hc0, hc1, hc2⟩, hs, rfl⟩
      exact validate_ok w h a c s hw1 hw2 hh1 hh2 ha1 ha2 hc1 hc2 hs
  · rintro rfl
    unfold validate_common_inputs
    rw [validateField_none, error_bind]
  · rintro w rfl hw0
    unfold validate_common_inputs
    rw [validateField_nonpos hw0, error_bind]
  · rintro w rfl hw0 rfl
    unfold validate_common_inputs
    rw [validateField_pos (not_le.mpr hw0), ok_bind, validateField_none,
      error_bind]
  · rintro w h rfl rfl hw0 hh0
    unfold validate_common_inputs
    rw [validateField_pos (not_le.mpr hw0), ok_bind,
      validateField_nonpos hh0, error_bind]
  · rintro w h rfl rfl hw0 hh0 rfl
    unfold validate_common_inputs
    rw [validateField_pos (not_le.mpr hw0), ok_bind,
      validateField_pos (not_le.mpr hh0), ok_bind, validateField_none,
      error_bind]
  · rintro w h a rfl rfl rfl hw0 hh0 ha0
    unfold validate_common_inputs
    rw [validateField_pos (not_le.mpr hw0), ok_bind,
      validateField_pos (not_le.mpr hh0), ok_bind,
      validateField_nonpos ha0, error_bind]
  · rintro w h a rfl rfl rfl hw0 hh0 ha0 rfl
    unfold validate_common_inputs
    rw [validateField_pos (not_le.mpr hw0), ok_bind,
      validateField_pos (not_le.mpr hh0), ok_bind,
      validateField_pos (not_le.mpr ha0), ok_bind, validateField_none,
      error_bind]
  · rintro w h a c rfl rfl rfl rfl hw0 hh0 ha0 hc0
    unfold validate_common_inputs
    rw [validateField_pos (not_le.mpr hw0), ok_bind,
      validateField_pos (not_le.mpr hh0), ok_bind,
      validateField_pos (not_le.mpr ha0), ok_bind,
      validateField_nonpos hc0, error_bind]
  · rintro w h a c rfl rfl rfl rfl hw0 hh0 ha0 hc0 hA
    rw [validate_reduce s (not_le.mpr hw0) (not_le.mpr hh0)
      (not_le.mpr ha0) (not_le.mpr hc0), if_pos hA]
  · rintro w h a c rfl rfl rfl rfl hw0 hh0 ha0 hc0 hA hW
    rw [validate_reduce s (not_le.mpr hw0) (not_le.mpr hh0)
      (not_le.mpr ha0) (not_le.mpr hc0), if_neg (not_not_intro hA),
      if_pos hW]
  · rintro w h a c rfl rfl rfl rfl hw0 hh0 ha0 hc0 hA hW hH
    rw [validate_reduce s (not_le.mpr hw0) (not_le.mpr hh0)
      (not_le.mpr ha0) (not_le.mpr hc0), if_neg (not_not_intro hA),
      if_neg (not_not_intro hW), if_pos hH]
  · rintro w h a c rfl rfl rfl rfl hw0 hh0 ha0 hc0 hA hW hH hC
    rw [validate_reduce s (not_le.mpr hw0) (not_le.mpr hh0)
      (not_le.mpr ha0) (not_le.mpr hc0), if_neg (not_not_intro hA),
      if_neg (not_not_intro hW), if_neg (not_not_intro hH), if_pos hC]
  · rintro w h a c rfl rfl rfl rfl hw0 hh0 ha0 hc0 hA hW hH hC hsex
    rw [validate_reduce s (not_le.mpr hw0) (not_le.mpr hh0)
      (not_le.mpr ha0) (not_le.mpr hc0), if_neg (not_not_intro hA),
      if_neg (not_not_intro hW), if_neg (not_not_intro hH),
      if_neg (not_not_intro hC), if_neg hsex]
  · rintro w h a c e rfl rfl rfl rfl herr
    unfold calculate_dose
    rw [herr, error_bind]

/-- Witness for C5: a fully valid input is accepted and returns the
normalized sex. -/
theorem validator_spec_witness :
    validate_common_inputs (some 70) (some 175) (some 45) maleStr
      (some 100) = Except.ok maleStr :=
  ((validator_spec (some 70) (some 175) (some 45) (some 100)
      maleStr).1 maleStr).mpr
    ⟨⟨70, rfl, by norm_num, by norm_num, by norm_num⟩,
     ⟨175, rfl, by norm_num, by norm_num, by norm_num⟩,
     ⟨45, rfl, by norm_num, by norm_num, by norm_num⟩,
     ⟨100, rfl, by norm_num, by norm_num, by norm_num⟩,
     Or.inl normalizeSex_male, normalizeSex_male.symm⟩

end Gentamicin
